import Mathlib

/-!
Verification development for the `sofis` moving-map gauge (`src/map-gauge.c`,
`src/map-math.h`).  The C code is shallowly embedded: `uint32_t` arithmetic is
`Nat` with explicit reduction modulo `2^32`, `SDL_Rect` is a record of `Int`
fields, fallible operations return a `Bool` alongside the new state, and the
clock (`SDL_GetTicks`) is passed explicitly as a `now` argument.  Code of the
repository that is not part of the provided sources (`map-math.c`, `misc.h`,
`base-gauge.h`, `generic-layer.h`, the SDL library) is modelled from the
specification or from the library's documented semantics; each such definition
says so in its doc comment.
-/

namespace Sofis

/-- Modulus of the C code's `uint32_t` arithmetic. -/
def U32 : Nat := 4294967296

/-- Addition of two `uint32_t` values (wrapping). -/
def uadd (a b : Nat) : Nat := (a + b) % U32

/-- Subtraction of two `uint32_t` values (wrapping). -/
def usub (a b : Nat) : Nat := (a + (U32 - b % U32)) % U32

theorem uadd_eq_of_lt {a b : Nat} (h : a + b < U32) : uadd a b = a + b := by
  simpa [uadd] using Nat.mod_eq_of_lt h

theorem usub_eq_of_le {a b : Nat} (hba : b ≤ a) (ha : a < U32) : usub a b = a - b := by
  simp only [usub, U32] at *
  omega

/-- Conversion of a `uint32_t` value to a C `int`, as on two's-complement
machines: values at or above `2^31` wrap to negative. -/
def toInt32 (v : Nat) : Int := if v < 2147483648 then (v : Int) else (v : Int) - (U32 : Int)

theorem toInt32_eq_of_lt {v : Nat} (h : v < 2147483648) : toInt32 v = (v : Int) := by
  simp [toInt32, h]

/-- `SDL_Rect`: four C `int` fields. -/
structure SDLRect where
  x : Int
  y : Int
  w : Int
  h : Int
deriving DecidableEq, Repr

/-- `SDL_RectEmpty` from SDL: a rect with non-positive width or height. -/
def SDLRect.isEmpty (r : SDLRect) : Bool := r.w ≤ 0 || r.h ≤ 0

/-- `SDL_IntersectRect` from SDL, modelled on the library's documented
semantics: on an empty input only the width and height of the destination are
written (set to 0) and the call reports false; otherwise the destination is
the clipped intersection and the call reports whether it is non-empty.  The
prior contents of the destination rect are passed as `dest`. -/
def SDL_IntersectRect (A B dest : SDLRect) : Bool × SDLRect :=
  if A.isEmpty || B.isEmpty then
    (false, { dest with w := 0, h := 0 })
  else
    let rx := max A.x B.x
    let ry := max A.y B.y
    let r : SDLRect := { x := rx, y := ry,
                         w := min (A.x + A.w) (B.x + B.w) - rx,
                         h := min (A.y + A.h) (B.y + B.h) - ry }
    (!r.isEmpty, r)

/-- Membership of an integer point in an `SDL_Rect` (half-open on the right
and bottom, as SDL rectangles are). -/
def inRect (px py : Int) (r : SDLRect) : Prop :=
  r.x ≤ px ∧ px < r.x + r.w ∧ r.y ≤ py ∧ py < r.y + r.h

instance (px py : Int) (r : SDLRect) : Decidable (inRect px py r) := by
  unfold inRect; infer_instance

/-- Modelled from the spec: `clip`/`clamp` of `misc.h` is not in src/; the
spec describes it as a pure clamp `MIN(MAX(n, lo), hi)`. -/
def clamp (x lo hi : Nat) : Nat := min (max x lo) hi

/-- `map_math_size` from `map-math.h`: `((uint32_t)256) << level`. -/
def map_math_size (level : Nat) : Nat := (256 * 2 ^ level) % U32

/-- Modelled from the spec: `map-math.c` is not in src/.  Per spec §4.1 the
projection is a fixed continuous cylindrical projection (tile (0,0) at the
northwest corner) whose pixel functions quantize it; a geographic position is
represented here by its image under the continuous projection: a point of the
unit square stored as two exact fractions `un/ud` and `vn/vd` (inputs outside
the projection's domain are clamped before projecting, so the image is never
negative). -/
structure GeoPos where
  un : Nat
  ud : Nat
  vn : Nat
  vd : Nat
deriving DecidableEq

/-- Modelled from the spec: `map_math_geo_to_pixel` (declared in `map-math.h`,
implemented in the missing `map-math.c`).  Quantizes the continuous projection
at the given level (floor, via `Nat` division); output is always within
`[0, sizeForLevel(level))`. -/
def map_math_geo_to_pixel (g : GeoPos) (level : Nat) : Nat × Nat :=
  let size := map_math_size level
  (min (g.un * size / g.ud) (size - 1),
   min (g.vn * size / g.vd) (size - 1))

/-- Modelled from the spec: `map_math_pixel_to_geo` is the exact inverse of
the forward projection's continuous form, evaluated at the pixel: the exact
fraction `px / sizeForLevel(level)` of the world. -/
def map_math_pixel_to_geo (px py : Nat) (level : Nat) : GeoPos :=
  ⟨px, map_math_size level, py, map_math_size level⟩

/-- One entry of the per-frame patch list (`MapPatch`); the decoded image is
abstracted to an identifier. -/
structure MapPatch where
  src : SDLRect
  dst : SDLRect
  layer : Nat
deriving DecidableEq, Repr

/-- The modelled state of a `MapGauge`.  `w`/`h` are the gauge's fixed pixel
dimensions (`base_gauge_w`/`base_gauge_h`); `marker_w`/`marker_h` the marker
sprite's dimensions (`generic_layer_w`/`h` of `marker.layer`); `patches` holds
the live prefix (`npatches` entries) of the patch array; `apatches` the
allocated capacity.  The two `ghost_` fields are proof instrumentation only:
they count invocations of `map_gauge_center_on_marker` and firings of the
roaming-timeout branch of `map_gauge_set_marker_position`, and are written by
no other code path. -/
structure MapGauge where
  w : Nat
  h : Nat
  level : Nat
  world_x : Nat
  world_y : Nat
  marker_x : Nat
  marker_y : Nat
  marker_w : Nat
  marker_h : Nat
  roaming : Bool
  last_manipulation : Nat
  dirty : Bool
  patches : List MapPatch
  apatches : Nat
  marker_src : SDLRect
  marker_dst : SDLRect
  ghost_center_calls : Nat
  ghost_timeout_recenters : Nat
deriving DecidableEq

/-- Macro `map_gauge_marker_left`: `marker.x - generic_layer_w(&marker.layer)/2`
in `uint32_t` arithmetic. -/
def map_gauge_marker_left (s : MapGauge) : Nat := usub s.marker_x (s.marker_w / 2)

/-- Macro `map_gauge_marker_top`. -/
def map_gauge_marker_top (s : MapGauge) : Nat := usub s.marker_y (s.marker_h / 2)

/-- Macro `map_gauge_marker_worldbox`, an `SDL_Rect` of C `int`s. -/
def map_gauge_marker_worldbox (s : MapGauge) : SDLRect :=
  { x := toInt32 (map_gauge_marker_left s), y := toInt32 (map_gauge_marker_top s),
    w := (s.marker_w : Int), h := (s.marker_h : Int) }

/-- Macro `map_gauge_viewport`. -/
def map_gauge_viewport (s : MapGauge) : SDLRect :=
  { x := toInt32 s.world_x, y := toInt32 s.world_y, w := (s.w : Int), h := (s.h : Int) }

/-- `map_gauge_set_viewport`: clamps the requested origin to the world bounds
(`map_lastcoord = map_math_size(level) - 1`), reports false when unchanged,
else commits and marks dirty.  The `animated` flag is overwritten with `false`
before being consulted, exactly as in the C code. -/
def map_gauge_set_viewport (s : MapGauge) (x y : Nat) (animated : Bool) : Bool × MapGauge :=
  let map_lastcoord := usub (map_math_size s.level) 1
  let x := clamp x 0 (usub map_lastcoord s.w)
  let y := clamp y 0 (usub map_lastcoord s.h)
  if x = s.world_x ∧ y = s.world_y then
    (false, s)
  else
    let animated := false
    if animated then
      (true, s)
    else
      (true, { s with world_x := x, world_y := y, dirty := true })

/-- `map_gauge_move_viewport`: relative scroll, `uint32_t + int32_t` wrapping
addition, delegated to `map_gauge_set_viewport`. -/
def map_gauge_move_viewport (s : MapGauge) (dx dy : Int) (animated : Bool) : Bool × MapGauge :=
  map_gauge_set_viewport s (((s.world_x + dx) % (U32 : Int)).toNat)
    (((s.world_y + dy) % (U32 : Int)).toNat) animated

/-- Modelled from the spec: `base_gauge_center_x`/`_y` live in the missing
`base-gauge.h`; the spec's viewport center is half the gauge's pixel size. -/
def base_gauge_center_x (s : MapGauge) : Nat := s.w / 2

/-- Modelled from the spec: vertical counterpart of `base_gauge_center_x`. -/
def base_gauge_center_y (s : MapGauge) : Nat := s.h / 2

/-- The absolute origin `map_gauge_center_on_marker` hands to
`map_gauge_set_viewport`: `(marker_left - center_x, marker_top - center_y)` in
`uint32_t` arithmetic. -/
def map_gauge_center_target (s : MapGauge) : Nat × Nat :=
  (usub (map_gauge_marker_left s) (base_gauge_center_x s),
   usub (map_gauge_marker_top s) (base_gauge_center_y s))

/-- `map_gauge_center_on_marker`: delegates the centering target to
`map_gauge_set_viewport`.  Increments the ghost invocation counter. -/
def map_gauge_center_on_marker (s : MapGauge) (animated : Bool) : Bool × MapGauge :=
  map_gauge_set_viewport { s with ghost_center_calls := s.ghost_center_calls + 1 }
    (map_gauge_center_target s).1 (map_gauge_center_target s).2 animated

/-- `map_gauge_follow_marker`: recenters when the marker's world box no longer
intersects the viewport, or when one of the four edge tests fires.  The fourth
test compares the marker's bottom edge against `world_x + h - 10`, with
`world_x` where `world_y` would be expected — faithfully transcribed from
`src/map-gauge.c` line 320. -/
def map_gauge_follow_marker (s : MapGauge) : Bool × MapGauge :=
  let res := SDL_IntersectRect (map_gauge_viewport s) (map_gauge_marker_worldbox s) s.marker_src
  let s := { s with marker_src := res.2 }
  if !res.1 then
    map_gauge_center_on_marker s true
  else if map_gauge_marker_left s ≤ uadd s.world_x 10
       ∨ uadd (map_gauge_marker_left s) s.marker_w ≥ usub (uadd s.world_x s.w) 10
       ∨ map_gauge_marker_top s ≤ uadd s.world_y 10
       ∨ uadd (map_gauge_marker_top s) s.marker_h ≥ usub (uadd s.world_x s.h) 10 then
    map_gauge_center_on_marker s true
  else
    (true, s)

/-- `map_gauge_manipulate_viewport`: stamps the manipulation time, forces
roaming, and delegates the relative move to `map_gauge_set_viewport`. -/
def map_gauge_manipulate_viewport (now : Nat) (s : MapGauge) (dx dy : Int)
    (animated : Bool) : Bool × MapGauge :=
  let s := { s with last_manipulation := now, roaming := true }
  map_gauge_set_viewport s (((s.world_x + dx) % (U32 : Int)).toNat)
    (((s.world_y + dy) % (U32 : Int)).toNat) animated

/-- The marker-update tail of `map_gauge_set_marker_position`
(`src/map-gauge.c` lines 208-218): projects the geographic position at the
current level; when the pixel position changed, stores it, follows the marker
unless roaming, and marks the gauge dirty. -/
def map_gauge_marker_update (s : MapGauge) (g : GeoPos) : Bool × MapGauge :=
  let p := map_math_geo_to_pixel g s.level
  if p.1 ≠ s.marker_x ∨ p.2 ≠ s.marker_y then
    let s := { s with marker_x := p.1, marker_y := p.2 }
    let s := if !s.roaming then (map_gauge_follow_marker s).2 else s
    (true, { s with dirty := true })
  else
    (false, s)

/-- `map_gauge_set_marker_position`: when roaming and the manipulation timeout
has expired (strict `>` 2000 ms in `uint32_t` tick arithmetic) leaves roaming
and recenters, then performs the marker update.  The ghost timeout counter is
incremented exactly when the timeout branch fires. -/
def map_gauge_set_marker_position (now : Nat) (s : MapGauge) (g : GeoPos) : Bool × MapGauge :=
  let s :=
    if s.roaming ∧ usub now s.last_manipulation > 2000 then
      let s := { s with roaming := false,
                        ghost_timeout_recenters := s.ghost_timeout_recenters + 1 }
      (map_gauge_center_on_marker s true).2
    else s
  map_gauge_marker_update s g

/-- `map_gauge_set_level`: rejects levels above 15; otherwise, when the level
changes, converts the viewport origin and the marker to geographic coordinates
at the old level, switches level, re-projects the origin through
`map_gauge_set_viewport` and the marker through
`map_gauge_set_marker_position`. -/
def map_gauge_set_level (now : Nat) (s : MapGauge) (level : Nat) : Bool × MapGauge :=
  if level > 15 then
    (false, s)
  else if level ≠ s.level then
    let g1 := map_math_pixel_to_geo s.world_x s.world_y s.level
    let p := map_math_geo_to_pixel g1 level
    let g2 := map_math_pixel_to_geo s.marker_x s.marker_y s.level
    let s := { s with level := level }
    let s := (map_gauge_set_viewport s p.1 p.2 false).2
    let s := (map_gauge_set_marker_position now s g2).2
    (true, s)
  else
    (true, s)

/-- Top-left tile column of the viewport, `world_x / TILE_SIZE`. -/
def map_gauge_tl_tile_x (s : MapGauge) : Nat := s.world_x / 256

/-- Top-left tile row of the viewport. -/
def map_gauge_tl_tile_y (s : MapGauge) : Nat := s.world_y / 256

/-- Bottom-right tile column: `(world_x + w - 1) / TILE_SIZE` in `uint32_t`
arithmetic. -/
def map_gauge_br_tile_x (s : MapGauge) : Nat := usub (uadd s.world_x s.w) 1 / 256

/-- Bottom-right tile row. -/
def map_gauge_br_tile_y (s : MapGauge) : Nat := usub (uadd s.world_y s.h) 1 / 256

/-- `x_tile_span = (br_tile_x - tl_tile_x) + 1`. -/
def map_gauge_x_tile_span (s : MapGauge) : Nat :=
  map_gauge_br_tile_x s - map_gauge_tl_tile_x s + 1

/-- `y_tile_span = (br_tile_y - tl_tile_y) + 1`. -/
def map_gauge_y_tile_span (s : MapGauge) : Nat :=
  map_gauge_br_tile_y s - map_gauge_tl_tile_y s + 1

/-- `tile_span = x_tile_span * y_tile_span`, the number of patch slots the
per-frame update needs. -/
def map_gauge_tile_span (s : MapGauge) : Nat :=
  map_gauge_x_tile_span s * map_gauge_y_tile_span s

/-- The patch built for one visible tile in `map_gauge_update_state`'s loop
body: the tile/viewport intersection in world coordinates, with `src` shifted
to tile-local and `dst` to viewport-local coordinates.  The destination rect
argument of `SDL_IntersectRect` is the (junk) prior array slot content; in the
code path that stores the patch both input rects are non-empty, so every field
of the result is freshly written and the junk never escapes. -/
def map_gauge_tile_patch (s : MapGauge) (tilex tiley layer : Nat) : MapPatch :=
  let tile : SDLRect := { x := 256 * (tilex : Int), y := 256 * (tiley : Int), w := 256, h := 256 }
  let inter := (SDL_IntersectRect (map_gauge_viewport s) tile ⟨0, 0, 0, 0⟩).2
  { src := { inter with x := inter.x - tile.x, y := inter.y - tile.y },
    dst := { inter with x := inter.x - toInt32 s.world_x, y := inter.y - toInt32 s.world_y },
    layer := layer }

/-- The patch list built by `map_gauge_update_state`'s nested tile loops: rows
from `tl_tile_y` to `br_tile_y`, columns from `tl_tile_x` to `br_tile_x`; a
tile every provider misses contributes nothing (the C code `continue`s). The
provider chain is abstracted to the `tiles` oracle, the first hit among the
providers for a given `(level, x, y)`. -/
def map_gauge_patch_list (tiles : Nat → Nat → Nat → Option Nat) (s : MapGauge) : List MapPatch :=
  (List.range (map_gauge_y_tile_span s)).flatMap (fun j =>
    (List.range (map_gauge_x_tile_span s)).flatMap (fun i =>
      match tiles s.level (map_gauge_tl_tile_x s + i) (map_gauge_tl_tile_y s + j) with
      | none => []
      | some layer =>
          [map_gauge_tile_patch s (map_gauge_tl_tile_x s + i) (map_gauge_tl_tile_y s + j) layer]))

/-- `map_gauge_update_state`: computes the tile span covering the viewport,
grows the patch array when needed (bailing out with the previous capacity
restored when `realloc` fails, modelled by `allocOk = false`), rebuilds the
patch list, and recomputes the marker's src/dst rects.  Reference counts on
tile layers are not modelled; holding a patch in `patches` stands for holding
its layer reference. -/
def map_gauge_update_state (allocOk : Bool) (tiles : Nat → Nat → Nat → Option Nat)
    (s : MapGauge) : MapGauge :=
  if map_gauge_tile_span s > s.apatches ∧ ¬allocOk then
    s
  else
    let s := if map_gauge_tile_span s > s.apatches then
               { s with apatches := map_gauge_tile_span s } else s
    let s := { s with patches := map_gauge_patch_list tiles s }
    let res := SDL_IntersectRect (map_gauge_viewport s) (map_gauge_marker_worldbox s) s.marker_src
    if res.1 then
      { s with
        marker_src := { res.2 with x := res.2.x - toInt32 (map_gauge_marker_left s),
                                   y := res.2.y - toInt32 (map_gauge_marker_top s) },
        marker_dst := { res.2 with x := res.2.x - toInt32 s.world_x,
                                   y := res.2.y - toInt32 s.world_y } }
    else
      { s with marker_src := ⟨-1, -1, -1, -1⟩, marker_dst := ⟨-1, -1, -1, -1⟩ }

/-- The tile-cache sizing computed by `map_gauge_init`: `twidth = w / TILE_SIZE`
and `cache_tiles = (MAX(twidth, 1) * MAX(twidth, 1)) * 4`.  The height is
received but, as in the C code, never enters the computation (`theight` is
computed and unused). -/
def map_gauge_cache_tiles (w h : Nat) : Nat :=
  let twidth := w / 256
  (max twidth 1 * max twidth 1) * 4

/-- The capacity `map_gauge_init` hands to each `map_tile_provider_new` call:
`cache_tiles * 2`, two viewports' worth of tiles. -/
def map_gauge_provider_capacity (w h : Nat) : Nat := map_gauge_cache_tiles w h * 2

/-- A concrete gauge used by witnesses: 512x512 pixels, level 5 (world size
8192), viewport origin (100, 100), 32x32 marker sprite centered at world
(4096, 4096). -/
def exampleGauge : MapGauge where
  w := 512
  h := 512
  level := 5
  world_x := 100
  world_y := 100
  marker_x := 4096
  marker_y := 4096
  marker_w := 32
  marker_h := 32
  roaming := false
  last_manipulation := 0
  dirty := false
  patches := []
  apatches := 0
  marker_src := ⟨0, 0, 0, 0⟩
  marker_dst := ⟨0, 0, 0, 0⟩
  ghost_center_calls := 0
  ghost_timeout_recenters := 0

/-- A tile oracle on which every request hits. -/
def oracle0 : Nat → Nat → Nat → Option Nat := fun _ _ _ => some 0

/-- The gauge of the C1 failing input: viewport origin (0, 1000) at level 5,
marker centered at world (316, 1316), i.e. at viewport-local (316, 316), its
32x32 bounding box more than 10 pixels from every viewport edge. -/
def followGauge : MapGauge :=
  { exampleGauge with world_x := 0, world_y := 1000, marker_x := 316, marker_y := 1316 }

/-- A 512x512 gauge at level 0, where the world (256 pixels) is smaller than
the viewport. -/
def bigGauge : MapGauge := { exampleGauge with level := 0, world_x := 0, world_y := 0 }

/-- C9: `map_gauge_set_viewport` produces the same state and return value for
`animated = true` and `animated = false`; the flag is overwritten with `false`
before it is consulted, so the transition is always an instantaneous jump. -/
theorem map_gauge_set_viewport_animated_irrelevant (s : MapGauge) (x y : Nat) :
    map_gauge_set_viewport s x y true = map_gauge_set_viewport s x y false := rfl

/-- C10: `map_gauge_init` sizes each tile cache as `8 * max(w/256, 1)^2`
entries; the capacity depends only on the width (the height argument is
ignored) and is at least 8. -/
theorem map_gauge_init_cache_capacity (w h : Nat) :
    map_gauge_provider_capacity w h = 8 * max (w / 256) 1 ^ 2 ∧
    map_gauge_provider_capacity w h = map_gauge_provider_capacity w 0 ∧
    8 ≤ map_gauge_provider_capacity w h := by
  refine ⟨?_, rfl, ?_⟩
  · unfold map_gauge_provider_capacity map_gauge_cache_tiles
    ring
  · unfold map_gauge_provider_capacity map_gauge_cache_tiles
    have h1 : 1 ≤ max (w / 256) 1 := le_max_right _ _
    nlinarith

/-- C7: `map_gauge_set_level` rejects a level above 15 returning failure with
the state (every field) unchanged, and succeeds changing nothing when the
requested level equals the current (valid) level. -/
theorem map_gauge_set_level_reject_and_noop (now : Nat) (s : MapGauge) (level : Nat) :
    (15 < level → map_gauge_set_level now s level = (false, s)) ∧
    (level = s.level → level ≤ 15 → map_gauge_set_level now s level = (true, s)) := by
  constructor
  · intro h
    unfold map_gauge_set_level
    rw [if_pos h]
  · intro h1 h2
    unfold map_gauge_set_level
    rw [if_neg (by omega), if_neg (by simp [h1])]

/-- C7 witness: level 20 is rejected without touching the example gauge;
re-requesting the current level 5 succeeds and changes nothing. -/
theorem map_gauge_set_level_reject_and_noop_witness :
    map_gauge_set_level 0 exampleGauge 20 = (false, exampleGauge) ∧
    map_gauge_set_level 0 exampleGauge 5 = (true, exampleGauge) :=
  ⟨(map_gauge_set_level_reject_and_noop 0 exampleGauge 20).1 (by decide),
   (map_gauge_set_level_reject_and_noop 0 exampleGauge 5).2 (by decide) (by decide)⟩

/-- C2: evaluation of `map_gauge_center_on_marker` at the failing input.  The
code's target is `(marker_left - center_x, marker_top - center_y)`, which
places the marker's top-left corner (not its center) at the viewport center:
for the example gauge (marker center (4096, 4096), 32x32 sprite, 512x512
viewport) the code commits origin (3824, 3824) whereas placing the marker's
center at the viewport's center requires `marker.x - w/2 = 3840`. -/
theorem map_gauge_center_on_marker_offcenter :
    map_gauge_center_target exampleGauge = (3824, 3824) ∧
    exampleGauge.marker_x - exampleGauge.w / 2 = 3840 ∧
    exampleGauge.marker_y - exampleGauge.h / 2 = 3840 ∧
    (map_gauge_center_on_marker exampleGauge true).2.world_x = 3824 ∧
    (map_gauge_center_on_marker exampleGauge true).2.world_y = 3824 := by decide

/-- C1: evaluation of `map_gauge_follow_marker` at the failing input.  The
marker's bounding box (world (300, 1300) to (332, 1332)) intersects the
viewport (origin (0, 1000), 512x512) and keeps more than 10 pixels from every
viewport edge, yet the call recenters (world origin moves to (44, 1044)): the
bottom-edge test of `src/map-gauge.c` line 320 compares against
`world_x + h - 10` where `world_y + h - 10` is meant. -/
theorem map_gauge_follow_marker_bottom_edge_bug :
    map_gauge_marker_left followGauge = 300 ∧
    map_gauge_marker_top followGauge = 1300 ∧
    followGauge.world_x + 10 < map_gauge_marker_left followGauge ∧
    map_gauge_marker_left followGauge + followGauge.marker_w + 10
      < followGauge.world_x + followGauge.w ∧
    followGauge.world_y + 10 < map_gauge_marker_top followGauge ∧
    map_gauge_marker_top followGauge + followGauge.marker_h + 10
      < followGauge.world_y + followGauge.h ∧
    (map_gauge_follow_marker followGauge).2.world_x = 44 ∧
    (map_gauge_follow_marker followGauge).2.world_y = 1044 := by decide

/-- C4 counterexample: at level 0 the world is 256 pixels wide, smaller than
the 512-pixel viewport; `map_lastcoord - w` underflows in `uint32_t`, the
clamp becomes vacuous and `map_gauge_set_viewport` commits origin
(5000, 6000), which is far outside `[0, worldSize - width]` (an empty range
here). -/
theorem map_gauge_set_viewport_no_clamp_small_world :
    (map_gauge_set_viewport bigGauge 5000 6000 false).1 = true ∧
    (map_gauge_set_viewport bigGauge 5000 6000 false).2.world_x = 5000 ∧
    (map_gauge_set_viewport bigGauge 5000 6000 false).2.world_y = 6000 ∧
    map_math_size bigGauge.level = 256 ∧
    bigGauge.w = 512 ∧
    ((map_gauge_set_viewport bigGauge 5000 6000 false).2.world_x : Int)
      > (map_math_size bigGauge.level : Int) - (bigGauge.w : Int) := by decide

theorem map_math_size_eq {level : Nat} (h : level ≤ 15) :
    map_math_size level = 256 * 2 ^ level := by
  have h2 : 2 ^ level ≤ 2 ^ 15 := Nat.pow_le_pow_right (by norm_num) h
  have h15 : (2 : Nat) ^ 15 = 32768 := by norm_num
  unfold map_math_size U32
  omega

theorem map_math_size_le {level : Nat} (h : level ≤ 15) :
    map_math_size level ≤ 8388608 := by
  have h2 : 2 ^ level ≤ 2 ^ 15 := Nat.pow_le_pow_right (by norm_num) h
  have h15 : (2 : Nat) ^ 15 = 32768 := by norm_num
  rw [map_math_size_eq h]
  omega

theorem map_math_size_pos (level : Nat) {h : level ≤ 15} :
    0 < map_math_size level := by
  rw [map_math_size_eq h]
  positivity

theorem map_gauge_set_viewport_bounds (s : MapGauge) (x y : Nat) (a : Bool)
    (hlvl : s.level ≤ 15) (hw : s.w < map_math_size s.level)
    (hh : s.h < map_math_size s.level)
    (hrv : (map_gauge_set_viewport s x y a).1 = true) :
    (map_gauge_set_viewport s x y a).2.world_x + s.w ≤ map_math_size s.level ∧
    (map_gauge_set_viewport s x y a).2.world_y + s.h ≤ map_math_size s.level := by
  have hsize : map_math_size s.level ≤ 8388608 := map_math_size_le hlvl
  have hpos : 0 < map_math_size s.level := map_math_size_pos s.level (h := hlvl)
  have h1 : usub (map_math_size s.level) 1 = map_math_size s.level - 1 :=
    usub_eq_of_le (by omega) (by unfold U32; omega)
  have hx : usub (usub (map_math_size s.level) 1) s.w = map_math_size s.level - 1 - s.w := by
    rw [h1]; exact usub_eq_of_le (by omega) (by unfold U32; omega)
  have hy : usub (usub (map_math_size s.level) 1) s.h = map_math_size s.level - 1 - s.h := by
    rw [h1]; exact usub_eq_of_le (by omega) (by unfold U32; omega)
  simp only [map_gauge_set_viewport, hx, hy] at hrv ⊢
  split_ifs at hrv ⊢ <;> simp_all [clamp] <;> omega

/-- C4 (amended): whenever the viewport is strictly smaller than the world at
the current level, every committing call to `map_gauge_set_viewport` — and
hence to `map_gauge_manipulate_viewport`, `map_gauge_move_viewport` and
`map_gauge_center_on_marker`, which delegate to it — leaves the origin with
`world_x + w ≤ worldSize(level)` and `world_y + h ≤ worldSize(level)` (in
fact the clamp bound is `worldSize - 1 - w`, a subinterval of the claimed
`[0, worldSize - w]`; the lower bound 0 is inherent to the unsigned type). -/
theorem map_gauge_viewport_origin_invariant (s : MapGauge)
    (hlvl : s.level ≤ 15) (hw : s.w < map_math_size s.level)
    (hh : s.h < map_math_size s.level) :
    (∀ x y a, (map_gauge_set_viewport s x y a).1 = true →
      (map_gauge_set_viewport s x y a).2.world_x + s.w ≤ map_math_size s.level ∧
      (map_gauge_set_viewport s x y a).2.world_y + s.h ≤ map_math_size s.level) ∧
    (∀ now dx dy a, (map_gauge_manipulate_viewport now s dx dy a).1 = true →
      (map_gauge_manipulate_viewport now s dx dy a).2.world_x + s.w ≤ map_math_size s.level ∧
      (map_gauge_manipulate_viewport now s dx dy a).2.world_y + s.h ≤ map_math_size s.level) ∧
    (∀ dx dy a, (map_gauge_move_viewport s dx dy a).1 = true →
      (map_gauge_move_viewport s dx dy a).2.world_x + s.w ≤ map_math_size s.level ∧
      (map_gauge_move_viewport s dx dy a).2.world_y + s.h ≤ map_math_size s.level) ∧
    (∀ a, (map_gauge_center_on_marker s a).1 = true →
      (map_gauge_center_on_marker s a).2.world_x + s.w ≤ map_math_size s.level ∧
      (map_gauge_center_on_marker s a).2.world_y + s.h ≤ map_math_size s.level) := by
  refine ⟨fun x y a hrv => map_gauge_set_viewport_bounds s x y a hlvl hw hh hrv,
    fun now dx dy a hrv =>
      map_gauge_set_viewport_bounds { s with last_manipulation := now, roaming := true }
        _ _ a hlvl hw hh hrv,
    fun dx dy a hrv => map_gauge_set_viewport_bounds s _ _ a hlvl hw hh hrv,
    fun a hrv =>
      map_gauge_set_viewport_bounds { s with ghost_center_calls := s.ghost_center_calls + 1 }
        _ _ a hlvl hw hh hrv⟩

/-- C4 witness: a request far to the right on the example gauge commits and
lands within bounds (clamped to 7679 = 8192 - 1 - 512). -/
theorem map_gauge_viewport_origin_invariant_witness :
    (map_gauge_set_viewport exampleGauge 9999 0 false).1 = true ∧
    (map_gauge_set_viewport exampleGauge 9999 0 false).2.world_x + exampleGauge.w
      ≤ map_math_size exampleGauge.level ∧
    (map_gauge_set_viewport exampleGauge 9999 0 false).2.world_y + exampleGauge.h
      ≤ map_math_size exampleGauge.level := by
  have h := (map_gauge_viewport_origin_invariant exampleGauge (by decide) (by decide)
    (by decide)).1 9999 0 false (by decide)
  exact ⟨by decide, h.1, h.2⟩

theorem map_gauge_set_viewport_preserves (s : MapGauge) (x y : Nat) (a : Bool) :
    (map_gauge_set_viewport s x y a).2.roaming = s.roaming ∧
    (map_gauge_set_viewport s x y a).2.last_manipulation = s.last_manipulation ∧
    (map_gauge_set_viewport s x y a).2.level = s.level ∧
    (map_gauge_set_viewport s x y a).2.marker_x = s.marker_x ∧
    (map_gauge_set_viewport s x y a).2.marker_y = s.marker_y ∧
    (map_gauge_set_viewport s x y a).2.ghost_center_calls = s.ghost_center_calls ∧
    (map_gauge_set_viewport s x y a).2.ghost_timeout_recenters = s.ghost_timeout_recenters := by
  simp only [map_gauge_set_viewport]
  split <;> simp

theorem map_gauge_center_on_marker_fields (s : MapGauge) (a : Bool) :
    (map_gauge_center_on_marker s a).2.roaming = s.roaming ∧
    (map_gauge_center_on_marker s a).2.last_manipulation = s.last_manipulation ∧
    (map_gauge_center_on_marker s a).2.level = s.level ∧
    (map_gauge_center_on_marker s a).2.marker_x = s.marker_x ∧
    (map_gauge_center_on_marker s a).2.marker_y = s.marker_y ∧
    (map_gauge_center_on_marker s a).2.ghost_center_calls = s.ghost_center_calls + 1 ∧
    (map_gauge_center_on_marker s a).2.ghost_timeout_recenters = s.ghost_timeout_recenters := by
  unfold map_gauge_center_on_marker
  simpa using map_gauge_set_viewport_preserves
    { s with ghost_center_calls := s.ghost_center_calls + 1 }
    (map_gauge_center_target s).1 (map_gauge_center_target s).2 a

theorem map_gauge_follow_marker_fields (s : MapGauge) :
    (map_gauge_follow_marker s).2.roaming = s.roaming ∧
    (map_gauge_follow_marker s).2.last_manipulation = s.last_manipulation ∧
    (map_gauge_follow_marker s).2.level = s.level ∧
    (map_gauge_follow_marker s).2.marker_x = s.marker_x ∧
    (map_gauge_follow_marker s).2.marker_y = s.marker_y ∧
    s.ghost_center_calls ≤ (map_gauge_follow_marker s).2.ghost_center_calls ∧
    (map_gauge_follow_marker s).2.ghost_timeout_recenters = s.ghost_timeout_recenters := by
  simp only [map_gauge_follow_marker]
  generalize SDL_IntersectRect (map_gauge_viewport s) (map_gauge_marker_worldbox s)
    s.marker_src = res
  have hc := map_gauge_center_on_marker_fields { s with marker_src := res.2 } true
  split
  · exact ⟨hc.1, hc.2.1, hc.2.2.1, hc.2.2.2.1, hc.2.2.2.2.1,
      by rw [hc.2.2.2.2.2.1]; exact Nat.le_succ _, hc.2.2.2.2.2.2⟩
  · split
    · exact ⟨hc.1, hc.2.1, hc.2.2.1, hc.2.2.2.1, hc.2.2.2.2.1,
        by rw [hc.2.2.2.2.2.1]; exact Nat.le_succ _, hc.2.2.2.2.2.2⟩
    · simp

theorem center_roaming (s : MapGauge) (a : Bool) :
    (map_gauge_center_on_marker s a).2.roaming = s.roaming :=
  (map_gauge_center_on_marker_fields s a).1

theorem center_last (s : MapGauge) (a : Bool) :
    (map_gauge_center_on_marker s a).2.last_manipulation = s.last_manipulation :=
  (map_gauge_center_on_marker_fields s a).2.1

theorem center_level (s : MapGauge) (a : Bool) :
    (map_gauge_center_on_marker s a).2.level = s.level :=
  (map_gauge_center_on_marker_fields s a).2.2.1

theorem center_marker_x (s : MapGauge) (a : Bool) :
    (map_gauge_center_on_marker s a).2.marker_x = s.marker_x :=
  (map_gauge_center_on_marker_fields s a).2.2.2.1

theorem center_marker_y (s : MapGauge) (a : Bool) :
    (map_gauge_center_on_marker s a).2.marker_y = s.marker_y :=
  (map_gauge_center_on_marker_fields s a).2.2.2.2.1

theorem center_gc (s : MapGauge) (a : Bool) :
    (map_gauge_center_on_marker s a).2.ghost_center_calls = s.ghost_center_calls + 1 :=
  (map_gauge_center_on_marker_fields s a).2.2.2.2.2.1

theorem center_gt (s : MapGauge) (a : Bool) :
    (map_gauge_center_on_marker s a).2.ghost_timeout_recenters = s.ghost_timeout_recenters :=
  (map_gauge_center_on_marker_fields s a).2.2.2.2.2.2

theorem follow_roaming (s : MapGauge) :
    (map_gauge_follow_marker s).2.roaming = s.roaming :=
  (map_gauge_follow_marker_fields s).1

theorem follow_last (s : MapGauge) :
    (map_gauge_follow_marker s).2.last_manipulation = s.last_manipulation :=
  (map_gauge_follow_marker_fields s).2.1

theorem follow_level (s : MapGauge) :
    (map_gauge_follow_marker s).2.level = s.level :=
  (map_gauge_follow_marker_fields s).2.2.1

theorem follow_marker_x (s : MapGauge) :
    (map_gauge_follow_marker s).2.marker_x = s.marker_x :=
  (map_gauge_follow_marker_fields s).2.2.2.1

theorem follow_marker_y (s : MapGauge) :
    (map_gauge_follow_marker s).2.marker_y = s.marker_y :=
  (map_gauge_follow_marker_fields s).2.2.2.2.1

theorem follow_gc_le (s : MapGauge) :
    s.ghost_center_calls ≤ (map_gauge_follow_marker s).2.ghost_center_calls :=
  (map_gauge_follow_marker_fields s).2.2.2.2.2.1

theorem follow_gt (s : MapGauge) :
    (map_gauge_follow_marker s).2.ghost_timeout_recenters = s.ghost_timeout_recenters :=
  (map_gauge_follow_marker_fields s).2.2.2.2.2.2

/-- C5 (amended): while ROAMING, a marker update whose elapsed time since the
last manipulation is at most 2000 ms (the code's test is a strict `>`) never
recenters, never changes the origin, and stays ROAMING; the first update
observing strictly more than 2000 ms elapsed transitions to FOLLOWING, fires
the timeout branch exactly once and invokes at least one recenter
(`map_gauge_center_on_marker`); once FOLLOWING, the timeout branch can never
fire again, so the automatic recenter after a manipulation happens exactly
once. -/
theorem map_gauge_marker_update_fields (s : MapGauge) (g : GeoPos) :
    (map_gauge_marker_update s g).2.roaming = s.roaming ∧
    (map_gauge_marker_update s g).2.last_manipulation = s.last_manipulation ∧
    (map_gauge_marker_update s g).2.level = s.level ∧
    (map_gauge_marker_update s g).2.ghost_timeout_recenters = s.ghost_timeout_recenters ∧
    s.ghost_center_calls ≤ (map_gauge_marker_update s g).2.ghost_center_calls ∧
    (map_gauge_marker_update s g).2.marker_x = (map_math_geo_to_pixel g s.level).1 ∧
    (map_gauge_marker_update s g).2.marker_y = (map_math_geo_to_pixel g s.level).2 ∧
    (s.roaming = true →
      (map_gauge_marker_update s g).2.world_x = s.world_x ∧
      (map_gauge_marker_update s g).2.world_y = s.world_y ∧
      (map_gauge_marker_update s g).2.ghost_center_calls = s.ghost_center_calls) := by
  have hgc := follow_gc_le { s with marker_x := (map_math_geo_to_pixel g s.level).1, marker_y := (map_math_geo_to_pixel g s.level).2 }
  cases hb : s.roaming <;> simp only [map_gauge_marker_update] <;> split <;>
    simp_all [follow_roaming, follow_last, follow_level, follow_gt, follow_marker_x,
      follow_marker_y]

theorem map_gauge_roaming_timeout (now : Nat) (s : MapGauge) (g : GeoPos) :
    (s.roaming = true → usub now s.last_manipulation ≤ 2000 →
      (map_gauge_set_marker_position now s g).2.roaming = true ∧
      (map_gauge_set_marker_position now s g).2.world_x = s.world_x ∧
      (map_gauge_set_marker_position now s g).2.world_y = s.world_y ∧
      (map_gauge_set_marker_position now s g).2.last_manipulation = s.last_manipulation ∧
      (map_gauge_set_marker_position now s g).2.ghost_center_calls = s.ghost_center_calls ∧
      (map_gauge_set_marker_position now s g).2.ghost_timeout_recenters
        = s.ghost_timeout_recenters) ∧
    (s.roaming = true → 2000 < usub now s.last_manipulation →
      (map_gauge_set_marker_position now s g).2.roaming = false ∧
      (map_gauge_set_marker_position now s g).2.ghost_timeout_recenters
        = s.ghost_timeout_recenters + 1 ∧
      s.ghost_center_calls + 1 ≤ (map_gauge_set_marker_position now s g).2.ghost_center_calls) ∧
    (s.roaming = false →
      (map_gauge_set_marker_position now s g).2.roaming = false ∧
      (map_gauge_set_marker_position now s g).2.ghost_timeout_recenters
        = s.ghost_timeout_recenters) := by
  refine ⟨fun hr hle => ?_, fun hr hgt => ?_, fun hr => ?_⟩
  · have hcond : ¬(s.roaming = true ∧ 2000 < usub now s.last_manipulation) :=
      fun h => absurd h.2 (by omega)
    simp only [map_gauge_set_marker_position, if_neg hcond]
    have hm := map_gauge_marker_update_fields s g
    have hw := hm.2.2.2.2.2.2.2 hr
    exact ⟨hm.1.trans hr, hw.1, hw.2.1, hm.2.1, hw.2.2, hm.2.2.2.1⟩
  · have hcond : s.roaming = true ∧ 2000 < usub now s.last_manipulation := ⟨hr, hgt⟩
    simp only [map_gauge_set_marker_position, if_pos hcond]
    have hm := map_gauge_marker_update_fields
      ((map_gauge_center_on_marker { s with roaming := false, ghost_timeout_recenters := s.ghost_timeout_recenters + 1 } true).2) g
    have hc := map_gauge_center_on_marker_fields
      { s with roaming := false, ghost_timeout_recenters := s.ghost_timeout_recenters + 1 } true
    refine ⟨by rw [hm.1, hc.1], by rw [hm.2.2.2.1, hc.2.2.2.2.2.2], ?_⟩
    have h5 := hm.2.2.2.2.1
    have h6 := hc.2.2.2.2.2.1
    have h7 : ({ s with roaming := false, ghost_timeout_recenters := s.ghost_timeout_recenters + 1 } : MapGauge).ghost_center_calls = s.ghost_center_calls := rfl
    omega
  · have hcond : ¬(s.roaming = true ∧ 2000 < usub now s.last_manipulation) := by
      simp [hr]
    simp only [map_gauge_set_marker_position, if_neg hcond]
    have hm := map_gauge_marker_update_fields s g
    exact ⟨hm.1.trans hr, hm.2.2.2.1⟩

/-- A geographic position whose continuous projection is the center of the
world square: pixel (4096, 4096) at level 5, the example gauge's marker. -/
def gHalf : GeoPos := ⟨1, 2, 1, 2⟩

/-- A geographic position projecting to the world's northwest corner. -/
def gOrigin : GeoPos := ⟨0, 1, 0, 1⟩

/-- The example gauge while ROAMING, last manipulated at tick 0. -/
def roamGauge : MapGauge := { exampleGauge with roaming := true }

/-- C5 witness: at 1500 ms elapsed a marker update on the roaming gauge
changes nothing relevant; at 2500 ms it transitions to FOLLOWING, fires the
timeout branch once and recenters. -/
theorem map_gauge_roaming_timeout_witness :
    ((map_gauge_set_marker_position 1500 roamGauge gHalf).2.roaming = true ∧
     (map_gauge_set_marker_position 1500 roamGauge gHalf).2.world_x = roamGauge.world_x ∧
     (map_gauge_set_marker_position 1500 roamGauge gHalf).2.world_y = roamGauge.world_y ∧
     (map_gauge_set_marker_position 1500 roamGauge gHalf).2.last_manipulation
       = roamGauge.last_manipulation ∧
     (map_gauge_set_marker_position 1500 roamGauge gHalf).2.ghost_center_calls
       = roamGauge.ghost_center_calls ∧
     (map_gauge_set_marker_position 1500 roamGauge gHalf).2.ghost_timeout_recenters
       = roamGauge.ghost_timeout_recenters) ∧
    ((map_gauge_set_marker_position 2500 roamGauge gHalf).2.roaming = false ∧
     (map_gauge_set_marker_position 2500 roamGauge gHalf).2.ghost_timeout_recenters
       = roamGauge.ghost_timeout_recenters + 1 ∧
     roamGauge.ghost_center_calls + 1
       ≤ (map_gauge_set_marker_position 2500 roamGauge gHalf).2.ghost_center_calls) :=
  ⟨(map_gauge_roaming_timeout 1500 roamGauge gHalf).1 (by decide) (by decide),
   (map_gauge_roaming_timeout 2500 roamGauge gHalf).2.1 (by decide) (by decide)⟩

/-- C5 counterexample: a marker update observing exactly 2000 ms elapsed since
the manipulation does NOT transition to FOLLOWING and does not recenter — the
code's test is strictly greater-than, so the claim's ">= 2000 ms" boundary
case fails. -/
theorem map_gauge_roaming_timeout_counterexample :
    usub 2000 ((map_gauge_manipulate_viewport 0 exampleGauge 5 5 false).2.last_manipulation)
      = 2000 ∧
    (map_gauge_set_marker_position 2000
      ((map_gauge_manipulate_viewport 0 exampleGauge 5 5 false).2) gOrigin).2.roaming = true ∧
    (map_gauge_set_marker_position 2000
      ((map_gauge_manipulate_viewport 0 exampleGauge 5 5 false).2)
        gOrigin).2.ghost_timeout_recenters = 0 := by decide

theorem geo_pixel_roundtrip (px L1 L2 : Nat) (h1 : L1 ≤ 15) (h2 : L2 ≤ 15)
    (hpx : px < map_math_size L1) :
    min (px * map_math_size L2 / map_math_size L1) (map_math_size L2 - 1)
      = px * map_math_size L2 / map_math_size L1 := by
  have hs1 : 0 < map_math_size L1 := map_math_size_pos _ (h := h1)
  have hs2 : 0 < map_math_size L2 := map_math_size_pos _ (h := h2)
  have hlt : px * map_math_size L2 / map_math_size L1 < map_math_size L2 :=
    Nat.div_lt_of_lt_mul (Nat.mul_lt_mul_of_pos_right hpx hs2)
  omega

theorem geo_pixel_roundtrip_pair (px py L1 L2 : Nat) (h1 : L1 ≤ 15) (h2 : L2 ≤ 15)
    (hpx : px < map_math_size L1) (hpy : py < map_math_size L1) :
    map_math_geo_to_pixel (map_math_pixel_to_geo px py L1) L2
      = (px * map_math_size L2 / map_math_size L1,
         py * map_math_size L2 / map_math_size L1) := by
  have e1 := geo_pixel_roundtrip px L1 L2 h1 h2 hpx
  have e2 := geo_pixel_roundtrip py L1 L2 h1 h2 hpy
  unfold map_math_geo_to_pixel map_math_pixel_to_geo
  exact congrArg₂ Prod.mk e1 e2

theorem map_gauge_set_marker_position_marker (now : Nat) (s : MapGauge) (g : GeoPos) :
    (map_gauge_set_marker_position now s g).2.marker_x = (map_math_geo_to_pixel g s.level).1 ∧
    (map_gauge_set_marker_position now s g).2.marker_y = (map_math_geo_to_pixel g s.level).2 := by
  simp only [map_gauge_set_marker_position]
  split
  · have hm := map_gauge_marker_update_fields
      ((map_gauge_center_on_marker { s with roaming := false, ghost_timeout_recenters := s.ghost_timeout_recenters + 1 } true).2) g
    have hl := center_level
      { s with roaming := false, ghost_timeout_recenters := s.ghost_timeout_recenters + 1 } true
    exact ⟨by rw [hm.2.2.2.2.2.1, hl], by rw [hm.2.2.2.2.2.2.1, hl]⟩
  · have hm := map_gauge_marker_update_fields s g
    exact ⟨hm.2.2.2.2.2.1, hm.2.2.2.2.2.2.1⟩

/-- C6: changing the zoom level preserves the geographic anchors within
rounding.  The round-trip of the viewport origin through `pixel_to_geo` at the
old level and `geo_to_pixel` at the new level — exactly the target
`map_gauge_set_level` hands to `map_gauge_set_viewport` — equals the origin
rescaled by the ratio of the world sizes (rounded down, i.e. the same world
pixel scaled to the new level); the marker position stored after the call is
the old marker position rescaled the same way. -/
theorem map_gauge_set_level_preserves_anchor (now : Nat) (s : MapGauge) (L : Nat)
    (h1 : s.level ≤ 15) (h2 : L ≤ 15) (hne : L ≠ s.level)
    (hx : s.world_x < map_math_size s.level) (hy : s.world_y < map_math_size s.level)
    (hmx : s.marker_x < map_math_size s.level) (hmy : s.marker_y < map_math_size s.level) :
    map_math_geo_to_pixel (map_math_pixel_to_geo s.world_x s.world_y s.level) L
      = (s.world_x * map_math_size L / map_math_size s.level,
         s.world_y * map_math_size L / map_math_size s.level) ∧
    (map_gauge_set_level now s L).2.marker_x
      = s.marker_x * map_math_size L / map_math_size s.level ∧
    (map_gauge_set_level now s L).2.marker_y
      = s.marker_y * map_math_size L / map_math_size s.level := by
  refine ⟨geo_pixel_roundtrip_pair s.world_x s.world_y s.level L h1 h2 hx hy, ?_, ?_⟩
  all_goals
    simp only [map_gauge_set_level, if_neg (show ¬(15 : Nat) < L by omega),
      if_pos hne]
  all_goals
    have hmm := map_gauge_set_marker_position_marker now
      ((map_gauge_set_viewport { s with level := L }
        (map_math_geo_to_pixel (map_math_pixel_to_geo s.world_x s.world_y s.level) L).1
        (map_math_geo_to_pixel (map_math_pixel_to_geo s.world_x s.world_y s.level) L).2
        false).2)
      (map_math_pixel_to_geo s.marker_x s.marker_y s.level)
    have hlv := (map_gauge_set_viewport_preserves { s with level := L }
      (map_math_geo_to_pixel (map_math_pixel_to_geo s.world_x s.world_y s.level) L).1
      (map_math_geo_to_pixel (map_math_pixel_to_geo s.world_x s.world_y s.level) L).2
      false).2.2.1
    have hrt := geo_pixel_roundtrip_pair s.marker_x s.marker_y s.level L h1 h2 hmx hmy
  · rw [hmm.1, hlv]
    show (map_math_geo_to_pixel (map_math_pixel_to_geo s.marker_x s.marker_y s.level) L).1 = _
    rw [hrt]
  · rw [hmm.2, hlv]
    show (map_math_geo_to_pixel (map_math_pixel_to_geo s.marker_x s.marker_y s.level) L).2 = _
    rw [hrt]

/-- C6 witness: on the example gauge (level 5, origin (100, 100), marker
(4096, 4096)), switching to level 6 doubles the anchors: the recomputed origin
target is (200, 200) and the marker lands at (8192, 8192). -/
theorem map_gauge_set_level_preserves_anchor_witness :
    map_math_geo_to_pixel
      (map_math_pixel_to_geo exampleGauge.world_x exampleGauge.world_y exampleGauge.level) 6
      = (200, 200) ∧
    (map_gauge_set_level 0 exampleGauge 6).2.marker_x = 8192 ∧
    (map_gauge_set_level 0 exampleGauge 6).2.marker_y = 8192 := by
  have h := map_gauge_set_level_preserves_anchor 0 exampleGauge 6 (by decide) (by decide)
    (by decide) (by decide) (by decide) (by decide) (by decide)
  exact ⟨h.1.trans (by decide), h.2.1.trans (by decide), h.2.2.trans (by decide)⟩

/-- C8: when growing the patch array is needed (`tile_span > apatches`) and
`realloc` fails, `map_gauge_update_state` returns with the state fully
preserved — patch list, patch count, layer references and the
allocated-capacity field (restored from the saved value) — and a later frame
with a working allocator performs the growth. -/
theorem map_gauge_update_state_alloc_failure (tiles : Nat → Nat → Nat → Option Nat)
    (s : MapGauge) (h : map_gauge_tile_span s > s.apatches) :
    map_gauge_update_state false tiles s = s ∧
    (map_gauge_update_state true tiles s).apatches = map_gauge_tile_span s := by
  constructor
  · unfold map_gauge_update_state
    rw [if_pos ⟨h, by simp⟩]
  · unfold map_gauge_update_state
    rw [if_neg (by simp)]
    simp only [if_pos h]
    split <;> rfl

/-- C8 witness: the example gauge needs 9 patch slots but has capacity 0; a
failing growth leaves the state untouched, a successful one next frame sets
the capacity to 9. -/
theorem map_gauge_update_state_alloc_failure_witness :
    map_gauge_update_state false oracle0 exampleGauge = exampleGauge ∧
    (map_gauge_update_state true oracle0 exampleGauge).apatches = 9 := by
  have h := map_gauge_update_state_alloc_failure oracle0 exampleGauge (by decide)
  exact ⟨h.1, h.2.trans (by decide)⟩

theorem map_gauge_update_state_patches (tiles : Nat → Nat → Nat → Option Nat)
    (s : MapGauge) :
    (map_gauge_update_state true tiles s).patches = map_gauge_patch_list tiles s := by
  simp only [map_gauge_update_state]
  rw [if_neg (by simp)]
  by_cases h : map_gauge_tile_span s > s.apatches
  · rw [if_pos h]
    split <;> rfl
  · rw [if_neg h]
    split <;> rfl

theorem mem_map_gauge_patch_list {tiles : Nat → Nat → Nat → Option Nat}
    {s : MapGauge} {p : MapPatch} :
    p ∈ map_gauge_patch_list tiles s ↔
      ∃ i j ℓ, i < map_gauge_x_tile_span s ∧ j < map_gauge_y_tile_span s ∧
        tiles s.level (map_gauge_tl_tile_x s + i) (map_gauge_tl_tile_y s + j) = some ℓ ∧
        p = map_gauge_tile_patch s (map_gauge_tl_tile_x s + i)
              (map_gauge_tl_tile_y s + j) ℓ := by
  unfold map_gauge_patch_list
  simp only [List.mem_flatMap, List.mem_range]
  constructor
  · rintro ⟨j, hj, i, hi, hp⟩
    rcases hop : tiles s.level (map_gauge_tl_tile_x s + i) (map_gauge_tl_tile_y s + j)
      with _ | ℓ
    · rw [hop] at hp
      simp at hp
    · rw [hop] at hp
      simp only [List.mem_singleton] at hp
      exact ⟨i, j, ℓ, hi, hj, hop, hp⟩
  · rintro ⟨i, j, ℓ, hi, hj, hop, rfl⟩
    refine ⟨j, hj, i, hi, ?_⟩
    rw [hop]
    simp

theorem SDL_IntersectRect_snd (A B dest : SDLRect) (hAw : 0 < A.w) (hAh : 0 < A.h)
    (hBw : 0 < B.w) (hBh : 0 < B.h) :
    (SDL_IntersectRect A B dest).2 =
      { x := max A.x B.x, y := max A.y B.y,
        w := min (A.x + A.w) (B.x + B.w) - max A.x B.x,
        h := min (A.y + A.h) (B.y + B.h) - max A.y B.y } := by
  unfold SDL_IntersectRect SDLRect.isEmpty
  rw [if_neg (by simp only [Bool.or_eq_true, decide_eq_true_eq]; omega)]

theorem inRect_tile_patch_dst (s : MapGauge) (tx ty ℓ : Nat) (px py : Int)
    (hw : 0 < s.w) (hh : 0 < s.h) (hwx : s.world_x < 2147483648)
    (hwy : s.world_y < 2147483648) :
    inRect px py (map_gauge_tile_patch s tx ty ℓ).dst ↔
      (max (s.world_x : Int) (256 * tx) ≤ s.world_x + px ∧
       s.world_x + px < min ((s.world_x : Int) + s.w) (256 * tx + 256) ∧
       max (s.world_y : Int) (256 * ty) ≤ s.world_y + py ∧
       s.world_y + py < min ((s.world_y : Int) + s.h) (256 * ty + 256)) := by
  have hvw : (0 : Int) < (map_gauge_viewport s).w := by
    show (0 : Int) < (s.w : Int)
    exact_mod_cast hw
  have hvh : (0 : Int) < (map_gauge_viewport s).h := by
    show (0 : Int) < (s.h : Int)
    exact_mod_cast hh
  simp only [map_gauge_tile_patch]
  rw [SDL_IntersectRect_snd _ _ _ hvw hvh (show (0 : Int) < 256 by norm_num)
    (show (0 : Int) < 256 by norm_num)]
  simp only [map_gauge_viewport, toInt32_eq_of_lt hwx, toInt32_eq_of_lt hwy, inRect]
  omega

/-- C3 counterexample: for a 512x512 viewport at level 5 with origin
(100, 100) the per-frame update's tile range reaches tile 2 on both axes
(world pixels 100..611 overlap tiles 0, 1 and 2), so the bottom-right tile is
(2, 2), the tile span is 9 and, with every tile request hitting, 9 patches are
built — not tiles x,y ∈ [0,1] with up to 4 patches as claimed. -/
theorem map_gauge_tile_span_counterexample :
    map_gauge_br_tile_x exampleGauge = 2 ∧
    map_gauge_br_tile_y exampleGauge = 2 ∧
    map_gauge_tile_span exampleGauge = 9 ∧
    (map_gauge_update_state true oracle0 exampleGauge).patches.length = 9 ∧
    ¬((map_gauge_update_state true oracle0 exampleGauge).patches.length ≤ 4) := by decide

/-- C3 (amended): for the spec's example state (viewport 512x512, level 5,
origin (100, 100)) the update spans tiles x ∈ [0,2], y ∈ [0,2], up to 9
patches; and for every in-range viewport in which every tile request hits, the
destination rectangles built by `map_gauge_update_state` tile the viewport
rectangle `{0, 0, w, h}` exactly: a point lies in the viewport rectangle iff
it lies in some patch destination, and two patches sharing a point are the
same patch. -/
theorem map_gauge_patch_coverage (tiles : Nat → Nat → Nat → Option Nat) (s : MapGauge)
    (hlvl : s.level ≤ 15) (hw : 0 < s.w) (hh : 0 < s.h)
    (hxw : s.world_x + s.w ≤ map_math_size s.level)
    (hyh : s.world_y + s.h ≤ map_math_size s.level)
    (htot : ∀ l x y, (tiles l x y).isSome) :
    (map_gauge_br_tile_x exampleGauge = 2 ∧ map_gauge_br_tile_y exampleGauge = 2 ∧
      map_gauge_tile_span exampleGauge = 9) ∧
    (∀ px py : Int,
      inRect px py ⟨0, 0, (s.w : Int), (s.h : Int)⟩ ↔
        ∃ p ∈ (map_gauge_update_state true tiles s).patches, inRect px py p.dst) ∧
    (∀ px py : Int, ∀ p ∈ (map_gauge_update_state true tiles s).patches,
      ∀ q ∈ (map_gauge_update_state true tiles s).patches,
      inRect px py p.dst → inRect px py q.dst → p = q) := by
  have hsize := map_math_size_le hlvl
  have hwx31 : s.world_x < 2147483648 := by omega
  have hwy31 : s.world_y < 2147483648 := by omega
  have hlx : usub (uadd s.world_x s.w) 1 = s.world_x + s.w - 1 := by
    rw [uadd_eq_of_lt (by unfold U32; omega)]
    exact usub_eq_of_le (by omega) (by unfold U32; omega)
  have hly : usub (uadd s.world_y s.h) 1 = s.world_y + s.h - 1 := by
    rw [uadd_eq_of_lt (by unfold U32; omega)]
    exact usub_eq_of_le (by omega) (by unfold U32; omega)
  have htl_x : map_gauge_tl_tile_x s = s.world_x / 256 := rfl
  have htl_y : map_gauge_tl_tile_y s = s.world_y / 256 := rfl
  have hbr_x : map_gauge_br_tile_x s = (s.world_x + s.w - 1) / 256 := by
    unfold map_gauge_br_tile_x
    rw [hlx]
  have hbr_y : map_gauge_br_tile_y s = (s.world_y + s.h - 1) / 256 := by
    unfold map_gauge_br_tile_y
    rw [hly]
  have hxs : map_gauge_x_tile_span s = map_gauge_br_tile_x s - map_gauge_tl_tile_x s + 1 :=
    rfl
  have hys : map_gauge_y_tile_span s = map_gauge_br_tile_y s - map_gauge_tl_tile_y s + 1 :=
    rfl
  have hpat := map_gauge_update_state_patches tiles s
  refine ⟨by decide, ?_, ?_⟩
  · intro px py
    rw [hpat]
    constructor
    · intro hin
      have hin' : 0 ≤ px ∧ px < (s.w : Int) ∧ 0 ≤ py ∧ py < (s.h : Int) := by
        simpa [inRect] using hin
      obtain ⟨hpx0, hpxw, hpy0, hpyh⟩ := hin'
      lift px to ℕ using hpx0 with a
      lift py to ℕ using hpy0 with b
      have haw : a < s.w := by exact_mod_cast hpxw
      have hbh : b < s.h := by exact_mod_cast hpyh
      obtain ⟨ℓ, hℓ⟩ := Option.isSome_iff_exists.mp
        (htot s.level ((s.world_x + a) / 256) ((s.world_y + b) / 256))
      refine ⟨map_gauge_tile_patch s ((s.world_x + a) / 256) ((s.world_y + b) / 256) ℓ,
        ?_, ?_⟩
      · rw [mem_map_gauge_patch_list]
        refine ⟨(s.world_x + a) / 256 - map_gauge_tl_tile_x s,
          (s.world_y + b) / 256 - map_gauge_tl_tile_y s, ℓ, by omega, by omega, ?_, ?_⟩
        · rw [show map_gauge_tl_tile_x s + ((s.world_x + a) / 256 - map_gauge_tl_tile_x s)
                = (s.world_x + a) / 256 by omega,
              show map_gauge_tl_tile_y s + ((s.world_y + b) / 256 - map_gauge_tl_tile_y s)
                = (s.world_y + b) / 256 by omega]
          exact hℓ
        · rw [show map_gauge_tl_tile_x s + ((s.world_x + a) / 256 - map_gauge_tl_tile_x s)
                = (s.world_x + a) / 256 by omega,
              show map_gauge_tl_tile_y s + ((s.world_y + b) / 256 - map_gauge_tl_tile_y s)
                = (s.world_y + b) / 256 by omega]
      · rw [inRect_tile_patch_dst s _ _ ℓ _ _ hw hh hwx31 hwy31]
        refine ⟨?_, ?_, ?_, ?_⟩ <;> omega
    · rintro ⟨p, hp, him⟩
      rw [mem_map_gauge_patch_list] at hp
      obtain ⟨i, j, ℓ, hi, hj, hop, rfl⟩ := hp
      rw [inRect_tile_patch_dst s _ _ ℓ _ _ hw hh hwx31 hwy31] at him
      simp only [inRect]
      omega
  · intro px py p hp q hq hip hiq
    rw [hpat, mem_map_gauge_patch_list] at hp hq
    obtain ⟨i, j, ℓ, hi, hj, hop, rfl⟩ := hp
    obtain ⟨i', j', ℓ', hi', hj', hop', rfl⟩ := hq
    rw [inRect_tile_patch_dst s _ _ ℓ _ _ hw hh hwx31 hwy31] at hip
    rw [inRect_tile_patch_dst s _ _ ℓ' _ _ hw hh hwx31 hwy31] at hiq
    have hii : i = i' := by omega
    have hjj : j = j' := by omega
    subst hii
    subst hjj
    rw [hop] at hop'
    rw [Option.some.injEq] at hop'
    rw [hop']

/-- C3 witness: on the example gauge with an always-hitting oracle, the
viewport-local point (7, 9) lies in the viewport rectangle and in a built
patch destination, as the coverage theorem demands. -/
theorem map_gauge_patch_coverage_witness :
    inRect 7 9 ⟨0, 0, (exampleGauge.w : Int), (exampleGauge.h : Int)⟩ ∧
    ∃ p ∈ (map_gauge_update_state true oracle0 exampleGauge).patches, inRect 7 9 p.dst :=
  ⟨by decide,
   ((map_gauge_patch_coverage oracle0 exampleGauge (by decide) (by decide) (by decide)
      (by decide) (by decide) (fun _ _ _ => rfl)).2.1 7 9).mp (by decide)⟩

end Sofis
